import Mathlib

/-!
# Verification of the configuration-driven semantic retrieval engine

This file gives a shallow embedding, in Lean 4, of the semantic-search
subsystem of the repository (`dot-claude/skills/semantic-search/src/database.py`
and `dot-claude/skills/semantic-search/src/cli.py`) and proves properties of
that embedding.

The embedding is split, mirroring the Python code, into:

* the *table registry* (`Config`, `lookupTable`) — the in-memory form of the
  `tables.yaml` mapping used by `ConfigurableTableSearch`;
* the *query compiler* (`mkCompiled`, `compileSearch`) — the pure part of
  `ConfigurableTableSearch.search` (database.py lines 214-268) that assembles
  the SQL text and the ordered parameter list before `cur.execute` is reached;
* the *backend semantics* (`runCompiled`) — a model of PostgreSQL/pgvector
  executing the one generated statement against a store of rows, with the
  distance metric of the `<=>` operator kept as an explicit parameter
  (pgvector itself is an external collaborator, not repository code);
* the *schema manager* (`ensureSchema`) — `VectorDB._ensure_schema`
  (database.py lines 26-52) over an explicit schema state with the
  `IF NOT EXISTS` semantics of the three DDL statements it issues;
* the *indexing run* (`cmd_index`) — the loop of `cli.py` lines 13-52, with
  the embedding provider as an explicit function argument.

Numeric values are modelled as rationals (`ℚ`); SQL strings are built with
plain string concatenation exactly following the Python f-strings.
-/

namespace SemanticSearch

/-- A (query or row) embedding vector, as passed around by the Python code. -/
abbrev Vec := List ℚ

/-- A SQL value as stored in a row of the production database. -/
inductive Value where
  | num (q : ℚ)
  | str (s : String)
  | vec (v : Vec)
  | null
deriving DecidableEq, Repr

/-- A bound query parameter, as appended to the `params` list in
`ConfigurableTableSearch.search` (database.py lines 238-259). -/
inductive Param where
  | vec (v : Vec)
  | int (n : Int)
  | rat (q : ℚ)
deriving DecidableEq, Repr

/-- The error taxonomy of spec §7.  The Python code only ever raises the
`unknownTable` case (`ValueError` at database.py line 216) and backend errors
(`psycopg2` exceptions, modelled as `queryExecution`); `invalidLimit` and
`dimensionMismatch` are named by the spec and are needed to state the claims
about them. -/
inductive SearchError where
  | unknownTable (name : String) (available : List String)
  | invalidLimit
  | dimensionMismatch
  | queryExecution (msg : String)
deriving DecidableEq, Repr

/-- A single-quote character (as a string), used when reproducing the exact
Python message/SQL text. -/
def sq : String := "\x27"

/-- Python `repr` of a list of strings, as interpolated into the
`ValueError` message at database.py line 216 (`list(tables.keys())`). -/
def pyListRepr (l : List String) : String :=
  "[" ++ String.intercalate ", " (l.map (fun s => sq ++ s ++ sq)) ++ "]"

/-- The message text carried by each error; for `unknownTable` this is the
exact f-string of database.py line 216. -/
def SearchError.message : SearchError → String
  | .unknownTable name available =>
      "Table " ++ sq ++ name ++ sq ++ " not configured. Available: " ++
        pyListRepr available
  | .invalidLimit => "invalid limit"
  | .dimensionMismatch => "dimension mismatch"
  | .queryExecution msg => msg

/-- The optional `filters` block of one `tables.yaml` entry
(read at database.py lines 225, 241-252). -/
structure Filters where
  time_column : Option String
  default_hours : Option Int
  confidence_column : Option String
  default_min_confidence : Option ℚ
deriving DecidableEq, Repr

/-- The empty `filters` block (Python `table_config.get("filters", {})`). -/
def Filters.none : Filters :=
  { time_column := Option.none, default_hours := Option.none,
    confidence_column := Option.none, default_min_confidence := Option.none }

/-- One `tables.yaml` entry, as consumed by `ConfigurableTableSearch.search`
(database.py lines 218-225).  `Option` fields are the keys accessed with
`.get`; the others are accessed with `[...]` and are required. -/
structure TableConfig where
  table : String
  embedding_column : String
  content_column : String
  tableAlias : Option String
  display_columns : Option (List String)
  joins : List String
  filters : Filters
deriving DecidableEq, Repr

/-- The loaded `tables` mapping: an insertion-ordered dictionary from logical
table name to its configuration. -/
abbrev Config := List (String × TableConfig)

/-- `list(tables.keys())` (database.py line 216). -/
def configKeys (config : Config) : List String := config.map Prod.fst

/-- Dictionary lookup (`table_name not in tables` / `tables[table_name]`,
database.py lines 215-218). -/
def lookupTable : Config → String → Option TableConfig
  | [], _ => none
  | (k, tc) :: rest, name => if k = name then some tc else lookupTable rest name

/-- Python truthiness of an optional string, as tested by
`if time_col:` / `if conf_col:` (database.py lines 242, 249): both a missing
key (`None`) and an empty string are falsy. -/
def truthyStr : Option String → Option String
  | some s => if s.isEmpty then none else some s
  | none => none

/-- One condition of the `WHERE` clause, together with the runtime value that
is bound for it.  The Python code keeps the rendered string in
`where_conditions` and the value in `params`; `renderCond` and `condParams`
recover exactly those two projections. -/
inductive Cond where
  | notNull (a col : String)
  | timeGE (a col : String) (hours : Int)
  | confGE (a col : String) (conf : ℚ)
deriving DecidableEq, Repr

/-- The string appended to `where_conditions` for each condition
(database.py lines 237, 244, 251). -/
def renderCond : Cond → String
  | .notNull a col => a ++ "." ++ col ++ " IS NOT NULL"
  | .timeGE a col _ => a ++ "." ++ col ++ " >= NOW() - INTERVAL " ++ sq ++ "%s hours" ++ sq
  | .confGE a col _ => a ++ "." ++ col ++ " >= %s"

/-- The parameters appended to `params` for each condition
(database.py lines 245, 252). -/
def condParams : Cond → List Param
  | .notNull _ _ => []
  | .timeGE _ _ hours => [Param.int hours]
  | .confGE _ _ conf => [Param.rat conf]

/-- `effective_hours` (database.py line 243): the caller's `hours` if given,
else the configured `default_hours`, else 168. -/
def effectiveHours (f : Filters) (hours : Option Int) : Int :=
  hours.getD (f.default_hours.getD 168)

/-- `effective_conf` (database.py line 250): the caller's `min_confidence` if
given, else the configured `default_min_confidence`, else 0.0. -/
def effectiveConf (f : Filters) (min_confidence : Option ℚ) : ℚ :=
  min_confidence.getD (f.default_min_confidence.getD 0)

/-- The `where_conditions` list in the order the Python code appends to it
(database.py lines 237-252): the embedding non-null check, then the time
filter if `time_column` is configured (and truthy), then the confidence
filter if `confidence_column` is configured (and truthy). -/
def mkConds (a embedding_col : String) (f : Filters)
    (hours : Option Int) (min_confidence : Option ℚ) : List Cond :=
  [Cond.notNull a embedding_col]
    ++ (match truthyStr f.time_column with
        | some tcol => [Cond.timeGE a tcol (effectiveHours f hours)]
        | none => [])
    ++ (match truthyStr f.confidence_column with
        | some ccol => [Cond.confGE a ccol (effectiveConf f min_confidence)]
        | none => [])

/-- The compiled statement: every string local of
`ConfigurableTableSearch.search` (database.py lines 219-268) together with the
structured data (`conds`, `query_embedding`, `limit`) that the execution model
interprets. -/
structure Compiled where
  table : String
  tableAlias : String
  embedding_col : String
  display_cols : List String
  conds : List Cond
  select_clause : String
  from_clause : String
  where_clause : String
  order_clause : String
  text : String
  params : List Param
  query_embedding : Vec
  limit : Int
deriving DecidableEq, Repr

/-- The body of `ConfigurableTableSearch.search` after the table lookup
succeeded (database.py lines 218-268), up to `cur.execute`.  Each `let`
mirrors one Python line; the final SQL `text` reproduces the f-string at
lines 262-268 character for character. -/
def mkCompiled (tc : TableConfig) (query_embedding : Vec) (limit : Int)
    (hours : Option Int) (min_confidence : Option ℚ) : Compiled :=
  let table := tc.table
  let embedding_col := tc.embedding_column
  let a := tc.tableAlias.getD (table.take 1)
  let display_cols :=
    tc.display_columns.getD [a ++ ".id", a ++ "." ++ tc.content_column]
  let joins := tc.joins
  let select_cols := String.intercalate ", " display_cols
  let select_clause :=
    select_cols ++ ", 1 - (" ++ a ++ "." ++ embedding_col ++
      " <=> %s::vector) as similarity_score"
  let from_clause :=
    if joins.isEmpty then table ++ " " ++ a
    else table ++ " " ++ a ++ " " ++ String.intercalate " " joins
  let conds := mkConds a embedding_col tc.filters hours min_confidence
  let where_clause := String.intercalate " AND " (conds.map renderCond)
  let order_clause := a ++ "." ++ embedding_col ++ " <=> %s::vector"
  let params :=
    [Param.vec query_embedding] ++ conds.flatMap condParams ++
      [Param.vec query_embedding, Param.int limit]
  let text :=
    "\n            SELECT " ++ select_clause ++
    "\n            FROM " ++ from_clause ++
    "\n            WHERE " ++ where_clause ++
    "\n            ORDER BY " ++ order_clause ++
    "\n            LIMIT %s\n        "
  { table := table, tableAlias := a, embedding_col := embedding_col,
    display_cols := display_cols, conds := conds,
    select_clause := select_clause, from_clause := from_clause,
    where_clause := where_clause, order_clause := order_clause,
    text := text, params := params,
    query_embedding := query_embedding, limit := limit }

/-- `ConfigurableTableSearch.search` up to (but not including) execution:
the unknown-table check of database.py lines 214-216, then the statement
assembly.  This is the Query Compiler of spec §4.2. -/
def compileSearch (config : Config) (table_name : String)
    (query_embedding : Vec) (limit : Int) (hours : Option Int)
    (min_confidence : Option ℚ) : Except SearchError Compiled :=
  match lookupTable config table_name with
  | none => .error (.unknownTable table_name (configKeys config))
  | some tc => .ok (mkCompiled tc query_embedding limit hours min_confidence)

/-! ## Backend execution model

The generated statement is executed by PostgreSQL with the pgvector
extension; that engine is an external collaborator (its code is not in the
repository).  The model below interprets the structured form of the compiled
statement against a store of rows: `WHERE` conditions filter, `ORDER BY`
sorts ascending by the `<=>` distance (ties kept in store order), `LIMIT`
truncates, and the projected score is `1 - distance` exactly as in the
`SELECT` list.  The distance metric of `<=>` (cosine distance for pgvector's
`vector_cosine_ops`) is an explicit function parameter `metric`. -/

/-- One row of the physical table (after the configured joins), its columns
keyed by qualified name (`alias.column`). -/
structure Row where
  cols : List (String × Value)
deriving DecidableEq, Repr

/-- The store a statement runs against: the rows in their natural order, and
the current time `NOW()` (in hours, rational). -/
structure Store where
  rows : List Row
  now : ℚ
deriving DecidableEq, Repr

/-- Column lookup in a row; `none` models a reference to a column that does
not exist (a backend error when evaluated). -/
def getCol : List (String × Value) → String → Option Value
  | [], _ => none
  | (k, v) :: rest, key => if k = key then some v else getCol rest key

/-- Evaluate one `WHERE` condition on one row.  SQL three-valued logic on a
NULL operand makes the comparison not-true, i.e. the row is dropped; a
reference to a missing column is a backend error (the spec notes that a
misconfigured column surfaces only as a backend query error). -/
def evalCond (now : ℚ) (r : Row) : Cond → Except SearchError Bool
  | .notNull a col =>
    match getCol r.cols (a ++ "." ++ col) with
    | some Value.null => .ok false
    | some _ => .ok true
    | none => .error (.queryExecution ("column " ++ a ++ "." ++ col ++ " does not exist"))
  | .timeGE a col hours =>
    match getCol r.cols (a ++ "." ++ col) with
    | some (Value.num t) => .ok (decide (now - (hours : ℚ) ≤ t))
    | some Value.null => .ok false
    | _ => .error (.queryExecution ("column " ++ a ++ "." ++ col ++ " is not a timestamp"))
  | .confGE a col conf =>
    match getCol r.cols (a ++ "." ++ col) with
    | some (Value.num x) => .ok (decide (conf ≤ x))
    | some Value.null => .ok false
    | _ => .error (.queryExecution ("column " ++ a ++ "." ++ col ++ " is not numeric"))

/-- Conjunction of the `WHERE` conditions on one row. -/
def condsHold (now : ℚ) (r : Row) : List Cond → Except SearchError Bool
  | [] => .ok true
  | c :: rest => do
    let b ← evalCond now r c
    if b then condsHold now r rest else .ok false

/-- Scan the store: keep the rows satisfying the `WHERE` clause and key each
kept row with its `<=>` distance from the query vector.  pgvector raises an
error when the two vectors have different dimensions. -/
def scanRows (metric : Vec → Vec → ℚ) (now : ℚ) (conds : List Cond)
    (qv : Vec) (a embedding_col : String) : List Row → Except SearchError (List (Row × ℚ))
  | [] => .ok []
  | r :: rs => do
    let b ← condsHold now r conds
    if b then
      match getCol r.cols (a ++ "." ++ embedding_col) with
      | some (Value.vec e) =>
        if e.length = qv.length then do
          let rest ← scanRows metric now conds qv a embedding_col rs
          .ok ((r, metric qv e) :: rest)
        else .error (.queryExecution "different vector dimensions")
      | _ => .error (.queryExecution "embedding unavailable")
    else scanRows metric now conds qv a embedding_col rs

/-- Stable insertion into a list sorted ascending by the attached key. -/
def insertByKey (x : Row × ℚ) : List (Row × ℚ) → List (Row × ℚ)
  | [] => [x]
  | y :: ys => if x.2 < y.2 then x :: y :: ys else y :: insertByKey x ys

/-- Stable sort ascending by the attached key: the `ORDER BY distance`
of the generated statement, ties kept in store order. -/
def sortByKey : List (Row × ℚ) → List (Row × ℚ)
  | [] => []
  | x :: xs => insertByKey x (sortByKey xs)

/-- The `SELECT` projection of one row onto the display columns; an unknown
column is a backend error. -/
def project (r : Row) : List String → Except SearchError (List (String × Value))
  | [] => .ok []
  | c :: cs =>
    match getCol r.cols c with
    | some v => do
      let rest ← project r cs
      .ok ((c, v) :: rest)
    | none => .error (.queryExecution ("column " ++ c ++ " does not exist"))

/-- Shape the kept, sorted, truncated rows into result pairs: the display
columns and the projected score `1 - distance`, the score separated from the
record exactly as the Python result loop does (database.py lines 273-277). -/
def shapeResults (display_cols : List String) :
    List (Row × ℚ) → Except SearchError (List (List (String × Value) × ℚ))
  | [] => .ok []
  | (r, d) :: rest => do
    let record ← project r display_cols
    let tail ← shapeResults display_cols rest
    .ok ((record, 1 - d) :: tail)

/-- Execute one compiled statement against the store.  PostgreSQL rejects a
negative `LIMIT`; `LIMIT 0` and larger limits truncate the ordered rows. -/
def runCompiled (metric : Vec → Vec → ℚ) (st : Store) (c : Compiled) :
    Except SearchError (List (List (String × Value) × ℚ)) :=
  if c.limit < 0 then .error (.queryExecution "LIMIT must not be negative")
  else do
    let keyed ← scanRows metric st.now c.conds c.query_embedding
      c.tableAlias c.embedding_col st.rows
    shapeResults c.display_cols ((sortByKey keyed).take c.limit.toNat)

/-- `ConfigurableTableSearch.search` end to end: compile the statement
(database.py lines 214-268) and execute it (lines 270-279). -/
def search (metric : Vec → Vec → ℚ) (st : Store) (config : Config)
    (table_name : String) (query_embedding : Vec) (limit : Int)
    (hours : Option Int) (min_confidence : Option ℚ) :
    Except SearchError (List (List (String × Value) × ℚ)) :=
  (compileSearch config table_name query_embedding limit hours min_confidence).bind
    (runCompiled metric st)

/-! ## Cosine distance

pgvector's `<=>` operator computes the cosine distance
`1 - dot(a,b)/(‖a‖·‖b‖)`.  Over `ℚ` the norms are not rational in general;
`cosineDist` below is exact on every pair of vectors whose norms are
rational (which covers all concrete vectors used in the theorems of this
file), and returns 0 outside that domain. -/

/-- Dot product of two vectors. -/
def dot (a b : Vec) : ℚ := (List.zipWith (· * ·) a b).sum

/-- The square root of a rational when it is again rational. -/
def ratSqrt (x : ℚ) : Option ℚ :=
  if x < 0 then none
  else
    let n := x.num.toNat.sqrt
    let d := x.den.sqrt
    if (n * n : Int) = x.num ∧ d * d = x.den then some ((n : ℚ) / (d : ℚ))
    else none

/-- pgvector's cosine distance, exact whenever both norms are rational; a
zero or irrational norm falls back to 0 (unused by the theorems below). -/
def cosineDist (a b : Vec) : ℚ :=
  match ratSqrt (dot a a), ratSqrt (dot b b) with
  | some na, some nb => if na = 0 ∨ nb = 0 then 0 else 1 - dot a b / (na * nb)
  | _, _ => 0

/-! ## Schema manager (`VectorDB._ensure_schema`)

`VectorDB._ensure_schema` (database.py lines 26-52) issues three DDL
statements: `CREATE EXTENSION IF NOT EXISTS vector`, `CREATE TABLE IF NOT
EXISTS code_elements (...)`, `CREATE INDEX IF NOT EXISTS
idx_code_elements_embedding ...`.  The schema state records by name what
exists; each `IF NOT EXISTS` statement creates its object when the name is
absent and is a no-op when it is present (PostgreSQL checks only the name). -/

/-- The schema-relevant state of the database: installed extensions, tables
(with their column definition lines), and indexes (with their definition). -/
structure SchemaState where
  extensions : List String
  tables : List (String × List String)
  indexes : List (String × String)
deriving DecidableEq, Repr

/-- The column definitions of the `code_elements` table
(database.py lines 33-45). -/
def codeElementsColumns : List String :=
  ["id SERIAL PRIMARY KEY",
   "file_path TEXT NOT NULL",
   "element_name TEXT NOT NULL",
   "element_type TEXT NOT NULL",
   "signature TEXT",
   "docstring TEXT",
   "searchable_text TEXT",
   "embedding vector(1536)",
   "created_at TIMESTAMP DEFAULT CURRENT_TIMESTAMP"]

/-- The definition of the ivfflat similarity index
(database.py lines 48-52). -/
def idxCodeElementsEmbedding : String :=
  "ON code_elements USING ivfflat (embedding vector_cosine_ops) WITH (lists = 100)"

/-- `CREATE EXTENSION IF NOT EXISTS`. -/
def createExtensionIfNotExists (name : String) (s : SchemaState) : SchemaState :=
  if name ∈ s.extensions then s
  else { s with extensions := s.extensions ++ [name] }

/-- `CREATE TABLE IF NOT EXISTS`. -/
def createTableIfNotExists (name : String) (columns : List String)
    (s : SchemaState) : SchemaState :=
  if name ∈ (s.tables.map Prod.fst) then s
  else { s with tables := s.tables ++ [(name, columns)] }

/-- `CREATE INDEX IF NOT EXISTS`. -/
def createIndexIfNotExists (name : String) (defn : String)
    (s : SchemaState) : SchemaState :=
  if name ∈ (s.indexes.map Prod.fst) then s
  else { s with indexes := s.indexes ++ [(name, defn)] }

/-- `VectorDB._ensure_schema` (database.py lines 26-52): the three DDL
statements in program order. -/
def ensureSchema (s : SchemaState) : SchemaState :=
  createIndexIfNotExists "idx_code_elements_embedding" idxCodeElementsEmbedding
    (createTableIfNotExists "code_elements" codeElementsColumns
      (createExtensionIfNotExists "vector" s))

/-- The schema already matches: all three objects exist by name. -/
def schemaMatches (s : SchemaState) : Bool :=
  "vector" ∈ s.extensions
    ∧ "code_elements" ∈ (s.tables.map Prod.fst)
    ∧ "idx_code_elements_embedding" ∈ (s.indexes.map Prod.fst)

/-! ## Indexing run (`cmd_index`, cli.py lines 13-52)

`cmd_index` walks the extracted code elements of each found file, derives
the searchable text, asks the embedding provider for a vector, and inserts
the element only when a (truthy) embedding came back; it finally prints
`"Indexed {total_elements} elements from {len(python_files)} files"`.
`find_python_files` and `extract_code_elements` (indexer.py) and
`generate_embedding` (embeddings.py) are repository modules not present
under src/, so their results are inputs of the model: `files` is the list of
(file path, extracted elements) pairs and `gen` the embedding provider. -/

/-- One extracted code element, with the fields `cmd_index` reads
(cli.py lines 31-47). -/
structure Element where
  file_path : String
  element_name : String
  element_type : String
  signature : String
  docstring : String
deriving DecidableEq, Repr

/-- Modelled from the spec: `create_searchable_text` lives in
`embeddings.py`, which is not under src/.  Spec §4.5: a deterministic
concatenation of name, signature, and description fields, in that fixed
order, skipping absent fields. -/
def create_searchable_text (name signature docstring : String) : String :=
  String.intercalate " " (([name, signature, docstring]).filter (fun s => !s.isEmpty))

/-- One row of `code_elements` as written by `VectorDB.insert`
(database.py lines 59-71). -/
structure IndexedRecord where
  file_path : String
  element_name : String
  element_type : String
  signature : String
  docstring : String
  searchable_text : String
  embedding : Vec
deriving DecidableEq, Repr

/-- The inner loop of `cmd_index` over the elements of one file
(cli.py lines 29-49): `if embedding:` is Python truthiness, so both a
provider failure (`None`) and an empty vector skip the insert. -/
def indexElements (gen : String → Option Vec) : List Element → List IndexedRecord
  | [] => []
  | e :: es =>
    let text := create_searchable_text e.element_name e.signature e.docstring
    match gen text with
    | some emb =>
      if emb.isEmpty then indexElements gen es
      else
        { file_path := e.file_path, element_name := e.element_name,
          element_type := e.element_type, signature := e.signature,
          docstring := e.docstring, searchable_text := text,
          embedding := emb } :: indexElements gen es
    | none => indexElements gen es

/-- The records inserted by a whole run of `cmd_index` over all files. -/
def cmdIndexRecords (gen : String → Option Vec)
    (files : List (String × List Element)) : List IndexedRecord :=
  (files.map (fun fp => indexElements gen fp.2)).flatten

/-- `cmd_index` (cli.py lines 13-52): the inserted records together with the
final report line `"Indexed {total_elements} elements from {n} files"`. -/
def cmd_index (gen : String → Option Vec)
    (files : List (String × List Element)) : List IndexedRecord × String :=
  let records := cmdIndexRecords gen files
  let total_elements := records.length
  let nfiles := files.length
  (records,
    "Indexed " ++ toString total_elements ++ " elements from " ++
      toString nfiles ++ " files")

/-- The number of source units for which the embedding provider failed
during the run (not computed anywhere by `cmd_index` itself). -/
def providerFailures (gen : String → Option Vec)
    (files : List (String × List Element)) : Nat :=
  (files.map (fun fp =>
    (fp.2.filter (fun e =>
      (gen (create_searchable_text e.element_name e.signature e.docstring)).isNone)).length)).sum

/-! ## Concrete fixtures

A small table registry and store in the shape of the repository's
`tables.yaml` example (a `messages` table with a time filter and a join, and
a `facts` table with a confidence filter), used by the concrete instances
below. -/

/-- The `facts` entry: confidence filter with configured default 0.6. -/
def factsCfg : TableConfig :=
  { table := "facts", embedding_column := "embedding", content_column := "fact",
    tableAlias := none, display_columns := none, joins := [],
    filters := { time_column := none, default_hours := none,
                 confidence_column := some "confidence",
                 default_min_confidence := some 0.6 } }

/-- The `messages` entry: explicit alias, display columns, a join, and a
time filter with configured default 24 hours. -/
def msgsCfg : TableConfig :=
  { table := "messages", embedding_column := "embedding", content_column := "content",
    tableAlias := some "m",
    display_columns := some ["m.id", "m.content", "m.sender_name"],
    joins := ["JOIN conversations c ON m.conversation_id = c.id"],
    filters := { time_column := some "provider_timestamp", default_hours := some 24,
                 confidence_column := none, default_min_confidence := none } }

/-- The demo registry. -/
def cfgDemo : Config := [("messages", msgsCfg), ("facts", factsCfg)]

/-- A `facts` row with confidence 0.4 and unit embedding `[1, 0]`. -/
def rowTea : Row :=
  ⟨[("f.id", Value.num 1), ("f.fact", Value.str "likes tea"),
    ("f.confidence", Value.num 0.4), ("f.embedding", Value.vec [1, 0])]⟩

/-- A one-row `facts` store. -/
def storeTea : Store := ⟨[rowTea], 0⟩

/-! ## Theorems -/

/-- The rendered `WHERE` condition strings do not depend on the runtime
filter values: `renderCond` keeps `%s` placeholders and drops the payloads. -/
theorem mkConds_map_renderCond (a e : String) (f : Filters)
    (h₁ : Option Int) (c₁ : Option ℚ) (h₂ : Option Int) (c₂ : Option ℚ) :
    (mkConds a e f h₁ c₁).map renderCond =
      (mkConds a e f h₂ c₂).map renderCond := by
  unfold mkConds
  cases truthyStr f.time_column <;> cases truthyStr f.confidence_column <;>
    simp [renderCond]

/-- C1: for one table configuration, the compiled SQL text is a function of
the configuration alone — two invocations with different query vectors,
limits, hours, and confidence values produce the identical statement text,
all runtime values travelling only in the parameter list. -/
theorem compiled_text_runtime_independent (config : Config) (name : String)
    (v₁ v₂ : Vec) (l₁ l₂ : Int) (h₁ h₂ : Option Int) (c₁ c₂ : Option ℚ) :
    (compileSearch config name v₁ l₁ h₁ c₁).map Compiled.text =
      (compileSearch config name v₂ l₂ h₂ c₂).map Compiled.text := by
  cases hl : lookupTable config name with
  | none => simp [compileSearch, hl]
  | some tc =>
    simp only [compileSearch, hl, Except.map, mkCompiled]
    have hw : (mkConds (tc.tableAlias.getD (tc.table.take 1)) tc.embedding_column
          tc.filters h₁ c₁).map renderCond =
        (mkConds (tc.tableAlias.getD (tc.table.take 1)) tc.embedding_column
          tc.filters h₂ c₂).map renderCond :=
      mkConds_map_renderCond _ _ _ h₁ c₁ h₂ c₂
    simp [hw]

/-- C4: searching a table name absent from the registry fails with
`UnknownTable` carrying the list of all configured names — at compile time,
before any execution — and the rendered message lists those names. -/
theorem search_unknown_table (metric : Vec → Vec → ℚ) (st : Store)
    (config : Config) (name : String) (v : Vec) (limit : Int)
    (hours : Option Int) (conf : Option ℚ)
    (h : lookupTable config name = none) :
    compileSearch config name v limit hours conf =
        .error (.unknownTable name (configKeys config))
      ∧ search metric st config name v limit hours conf =
        .error (.unknownTable name (configKeys config))
      ∧ (SearchError.unknownTable name (configKeys config)).message =
        "Table " ++ sq ++ name ++ sq ++ " not configured. Available: " ++
          pyListRepr (configKeys config) := by
  refine ⟨?_, ?_, rfl⟩
  · simp [compileSearch, h]
  · simp [search, compileSearch, h, Except.bind]

/-- C4 witness: the name `nope` is not configured in the demo registry. -/
theorem search_unknown_table_witness :
    compileSearch cfgDemo "nope" [1] 10 none none =
        .error (.unknownTable "nope" (configKeys cfgDemo))
      ∧ search (fun _ _ => 0) ⟨[], 0⟩ cfgDemo "nope" [1] 10 none none =
        .error (.unknownTable "nope" (configKeys cfgDemo))
      ∧ (SearchError.unknownTable "nope" (configKeys cfgDemo)).message =
        "Table " ++ sq ++ "nope" ++ sq ++ " not configured. Available: " ++
          pyListRepr (configKeys cfgDemo) :=
  search_unknown_table (fun _ _ => 0) ⟨[], 0⟩ cfgDemo "nope" [1] 10 none none
    (by decide)

/-- Cosine distance of the unit vector `[1,0]` to itself is 0. -/
theorem cosineDist_self_unit : cosineDist [1, 0] [1, 0] = 0 := by
  norm_num [cosineDist, dot, ratSqrt]

/-- Cosine distance of `[1,0]` to the opposite unit vector `[-1,0]` is 2,
the maximum of the metric. -/
theorem cosineDist_opposite_unit : cosineDist [1, 0] [-1, 0] = 2 := by
  norm_num [cosineDist, dot, ratSqrt]

/-- The default alias of the `facts` table is its first character. -/
theorem take_facts : ("facts" : String).take 1 = "f" := rfl

/-- C7: with `confidence_column=confidence` and `default_min_confidence=0.6`
configured, the record with confidence 0.4 is excluded when the caller omits
`min_confidence` (the threshold falls back to the configured 0.6), and is
returned when the caller passes `min_confidence=0.3`. -/
theorem search_confidence_default_scenario :
    search cosineDist storeTea cfgDemo "facts" [1, 0] 10 none none = .ok []
      ∧ search cosineDist storeTea cfgDemo "facts" [1, 0] 10 none (some 0.3) =
        .ok [([("f.id", Value.num 1), ("f.fact", Value.str "likes tea")], 1)] := by
  constructor
  · have hc : compileSearch cfgDemo "facts" [1, 0] 10 none none =
        .ok (mkCompiled factsCfg [1, 0] 10 none none) := rfl
    have h1 : ¬((0.6 : ℚ) ≤ 0.4) := by norm_num
    rw [search, hc]
    show runCompiled cosineDist storeTea (mkCompiled factsCfg [1, 0] 10 none none) = _
    simp [mkCompiled, factsCfg, mkConds, truthyStr, effectiveConf, effectiveHours,
      runCompiled, scanRows, condsHold, evalCond, getCol, storeTea, rowTea, sortByKey,
      insertByKey, shapeResults, project, Except.bind, Except.instMonad, Bind.bind,
      h1, take_facts]
  · have hc : compileSearch cfgDemo "facts" [1, 0] 10 none (some 0.3) =
        .ok (mkCompiled factsCfg [1, 0] 10 none (some 0.3)) := rfl
    have h1 : ((0.3 : ℚ) ≤ 0.4) := by norm_num
    rw [search, hc]
    show runCompiled cosineDist storeTea (mkCompiled factsCfg [1, 0] 10 none (some 0.3)) = _
    simp [mkCompiled, factsCfg, mkConds, truthyStr, effectiveConf, effectiveHours,
      runCompiled, scanRows, condsHold, evalCond, getCol, storeTea, rowTea, sortByKey,
      insertByKey, shapeResults, project, Except.bind, Except.instMonad, Bind.bind,
      cosineDist_self_unit, h1, take_facts]

/-- C2 counterexample: a call with `limit = 0` does not fail with
`InvalidLimit` — the compiler accepts it and the statement is executed
against the store, returning the empty result. -/
theorem limit_not_validated :
    compileSearch cfgDemo "facts" [1, 0] 0 none none ≠
        Except.error SearchError.invalidLimit
      ∧ search cosineDist storeTea cfgDemo "facts" [1, 0] 0 none none = .ok [] := by
  have hc : compileSearch cfgDemo "facts" [1, 0] 0 none none =
      .ok (mkCompiled factsCfg [1, 0] 0 none none) := rfl
  constructor
  · rw [hc]; simp
  · have h1 : ¬((0.6 : ℚ) ≤ 0.4) := by norm_num
    rw [search, hc]
    show runCompiled cosineDist storeTea (mkCompiled factsCfg [1, 0] 0 none none) = _
    simp [mkCompiled, factsCfg, mkConds, truthyStr, effectiveConf, effectiveHours,
      runCompiled, scanRows, condsHold, evalCond, getCol, storeTea, rowTea, sortByKey,
      insertByKey, shapeResults, project, Except.bind, Except.instMonad, Bind.bind,
      h1, take_facts]

/-- C2 amended: `search` performs no limit validation at all.  For any
non-positive limit it never fails with `InvalidLimit`; when the table is
configured, compilation succeeds and the limit is bound as the final query
parameter, so the non-positive value reaches the backend. -/
theorem search_no_limit_validation (config : Config) (name : String) (v : Vec)
    (l : Int) (hours : Option Int) (conf : Option ℚ) (_hl : l ≤ 0) :
    compileSearch config name v l hours conf ≠
        Except.error SearchError.invalidLimit
      ∧ ((lookupTable config name).isSome = true →
          ∃ q, compileSearch config name v l hours conf = .ok q
            ∧ q.params.getLast? = some (Param.int l)) := by
  cases hk : lookupTable config name with
  | none => refine ⟨by simp [compileSearch, hk], by simp [hk]⟩
  | some tc =>
    refine ⟨by simp [compileSearch, hk], fun _ => ⟨mkCompiled tc v l hours conf,
      by simp [compileSearch, hk], ?_⟩⟩
    show ([Param.vec v] ++ (mkConds (tc.tableAlias.getD (tc.table.take 1))
        tc.embedding_column tc.filters hours conf).flatMap condParams ++
        [Param.vec v, Param.int l]).getLast? = some (Param.int l)
    rw [show [Param.vec v, Param.int l] = [Param.vec v] ++ [Param.int l] from rfl,
      ← List.append_assoc]
    exact List.getLast?_concat _

/-- C2 amended witness: the instance at `limit = 0` on the demo registry. -/
theorem search_no_limit_validation_witness :
    compileSearch cfgDemo "facts" [1] 0 none none ≠
        Except.error SearchError.invalidLimit
      ∧ ((lookupTable cfgDemo "facts").isSome = true →
          ∃ q, compileSearch cfgDemo "facts" [1] 0 none none = .ok q
            ∧ q.params.getLast? = some (Param.int 0)) :=
  search_no_limit_validation cfgDemo "facts" [1] 0 none none (by norm_num)

/-- A `facts` row whose stored embedding has dimension 3. -/
def rowDim3 : Row :=
  ⟨[("f.id", Value.num 2), ("f.fact", Value.str "three dims"),
    ("f.confidence", Value.num 0.9), ("f.embedding", Value.vec [1, 0, 0])]⟩

/-- A store holding only the dimension-3 row. -/
def storeDim3 : Store := ⟨[rowDim3], 0⟩

/-- C3 counterexample: a query vector of dimension 2 against a store whose
embeddings have dimension 3 is not rejected with `DimensionMismatch`: the
statement compiles, executes, and the mismatch surfaces as a backend
query-execution error. -/
theorem dimension_not_validated :
    compileSearch cfgDemo "facts" [1, 0] 10 none none ≠
        Except.error SearchError.dimensionMismatch
      ∧ search cosineDist storeDim3 cfgDemo "facts" [1, 0] 10 none none =
        .error (.queryExecution "different vector dimensions") := by
  have hc : compileSearch cfgDemo "facts" [1, 0] 10 none none =
      .ok (mkCompiled factsCfg [1, 0] 10 none none) := rfl
  constructor
  · rw [hc]; simp
  · have h1 : ((0.6 : ℚ) ≤ 0.9) := by norm_num
    rw [search, hc]
    show runCompiled cosineDist storeDim3 (mkCompiled factsCfg [1, 0] 10 none none) = _
    simp [mkCompiled, factsCfg, mkConds, truthyStr, effectiveConf, effectiveHours,
      runCompiled, scanRows, condsHold, evalCond, getCol, storeDim3, rowDim3, sortByKey,
      insertByKey, shapeResults, project, Except.bind, Except.instMonad, Bind.bind,
      h1, take_facts]

/-- C3 amended: `search` performs no dimension validation: it can never fail
with `DimensionMismatch`, and for any configured table it compiles and
proceeds to execution regardless of the query vector's dimension (a mismatch
then surfaces as a backend error, as the counterexample shows). -/
theorem search_no_dimension_validation (config : Config) (name : String)
    (v : Vec) (l : Int) (hours : Option Int) (conf : Option ℚ) :
    compileSearch config name v l hours conf ≠
        Except.error SearchError.dimensionMismatch
      ∧ ((lookupTable config name).isSome = true →
          (compileSearch config name v l hours conf).isOk = true) := by
  cases hk : lookupTable config name with
  | none => exact ⟨by simp [compileSearch, hk], by simp [hk]⟩
  | some tc =>
    exact ⟨by simp [compileSearch, hk],
      fun _ => by simp [compileSearch, hk, Except.isOk, Except.toBool]⟩

/-- C3 amended witness: the instance with a dimension-2 query vector on the
demo registry (whose demo store holds dimension-3 embeddings). -/
theorem search_no_dimension_validation_witness :
    compileSearch cfgDemo "facts" [1, 0] 10 none none ≠
        Except.error SearchError.dimensionMismatch
      ∧ ((lookupTable cfgDemo "facts").isSome = true →
          (compileSearch cfgDemo "facts" [1, 0] 10 none none).isOk = true) :=
  search_no_dimension_validation cfgDemo "facts" [1, 0] 10 none none

/-- `CREATE EXTENSION IF NOT EXISTS` leaves the extension present. -/
theorem createExtensionIfNotExists_mem (n : String) (s : SchemaState) :
    n ∈ (createExtensionIfNotExists n s).extensions := by
  unfold createExtensionIfNotExists; split <;> simp_all

/-- `CREATE TABLE IF NOT EXISTS` leaves the table present. -/
theorem createTableIfNotExists_mem (n : String) (cols : List String) (s : SchemaState) :
    n ∈ ((createTableIfNotExists n cols s).tables.map Prod.fst) := by
  unfold createTableIfNotExists; split <;> simp_all

/-- `CREATE INDEX IF NOT EXISTS` leaves the index present. -/
theorem createIndexIfNotExists_mem (n : String) (d : String) (s : SchemaState) :
    n ∈ ((createIndexIfNotExists n d s).indexes.map Prod.fst) := by
  unfold createIndexIfNotExists; split <;> simp_all

/-- Creating a table does not change the extensions. -/
theorem createTableIfNotExists_extensions (n : String) (cols : List String)
    (s : SchemaState) : (createTableIfNotExists n cols s).extensions = s.extensions := by
  unfold createTableIfNotExists; split <;> rfl

/-- Creating an index does not change the extensions. -/
theorem createIndexIfNotExists_extensions (n d : String) (s : SchemaState) :
    (createIndexIfNotExists n d s).extensions = s.extensions := by
  unfold createIndexIfNotExists; split <;> rfl

/-- Creating an index does not change the tables. -/
theorem createIndexIfNotExists_tables (n d : String) (s : SchemaState) :
    (createIndexIfNotExists n d s).tables = s.tables := by
  unfold createIndexIfNotExists; split <;> rfl

/-- An already-present extension makes the statement a no-op. -/
theorem createExtensionIfNotExists_of_mem (n : String) (s : SchemaState)
    (h : n ∈ s.extensions) : createExtensionIfNotExists n s = s := by
  unfold createExtensionIfNotExists; simp [h]

/-- An already-present table makes the statement a no-op. -/
theorem createTableIfNotExists_of_mem (n : String) (cols : List String)
    (s : SchemaState) (h : n ∈ (s.tables.map Prod.fst)) :
    createTableIfNotExists n cols s = s := by
  unfold createTableIfNotExists; simp [h]

/-- An already-present index makes the statement a no-op. -/
theorem createIndexIfNotExists_of_mem (n d : String) (s : SchemaState)
    (h : n ∈ (s.indexes.map Prod.fst)) : createIndexIfNotExists n d s = s := by
  unfold createIndexIfNotExists; simp [h]

/-- After one `_ensure_schema` run all three objects exist. -/
theorem schemaMatches_ensureSchema (s : SchemaState) :
    schemaMatches (ensureSchema s) = true := by
  unfold schemaMatches ensureSchema
  simp only [decide_eq_true_eq]
  refine ⟨?_, ?_, ?_⟩
  · rw [createIndexIfNotExists_extensions, createTableIfNotExists_extensions]
    exact createExtensionIfNotExists_mem _ _
  · rw [createIndexIfNotExists_tables]
    exact createTableIfNotExists_mem _ _ _
  · exact createIndexIfNotExists_mem _ _ _

/-- C8: `VectorDB._ensure_schema` is idempotent — a second run right after a
first one changes nothing, and on a schema that already matches (all three
objects exist) a run is a no-op. -/
theorem ensureSchema_idempotent (s : SchemaState) :
    ensureSchema (ensureSchema s) = ensureSchema s
      ∧ (schemaMatches s = true → ensureSchema s = s) := by
  have key : ∀ t : SchemaState, schemaMatches t = true → ensureSchema t = t := by
    intro t ht
    unfold schemaMatches at ht
    simp only [decide_eq_true_eq] at ht
    obtain ⟨h1, h2, h3⟩ := ht
    unfold ensureSchema
    rw [createExtensionIfNotExists_of_mem _ _ h1,
      createTableIfNotExists_of_mem _ _ _ h2,
      createIndexIfNotExists_of_mem _ _ _ h3]
  exact ⟨key _ (schemaMatches_ensureSchema s), key s⟩

/-- C8 witness: starting from the empty schema, one run creates everything
and the second run is the identity. -/
theorem ensureSchema_idempotent_witness :
    ensureSchema (ensureSchema (ensureSchema ⟨[], [], []⟩)) =
        ensureSchema (ensureSchema ⟨[], [], []⟩)
      ∧ (schemaMatches (ensureSchema ⟨[], [], []⟩) = true →
          ensureSchema (ensureSchema ⟨[], [], []⟩) = ensureSchema ⟨[], [], []⟩) :=
  ensureSchema_idempotent (ensureSchema ⟨[], [], []⟩)

/-- The demo embedding provider: fails exactly on the searchable text
`"bad"`. -/
def genDemo : String → Option Vec := fun s => if s = "bad" then none else some [1]

/-- An element whose searchable text the provider rejects. -/
def elBad : Element := ⟨"a.py", "bad", "function", "", ""⟩

/-- An element the provider embeds. -/
def elGood : Element := ⟨"a.py", "good", "function", "", ""⟩

/-- Run A: one file with a failing and a succeeding element. -/
def filesA : List (String × List Element) := [("a.py", [elBad, elGood])]

/-- Run B: one file with only the succeeding element. -/
def filesB : List (String × List Element) := [("b.py", [elGood])]

/-- C9 counterexample: two runs with different numbers of provider failures
(one versus zero) print the identical end-of-run report, so the report does
not carry the failure count; the run does continue past the failing unit
(the succeeding element is still indexed). -/
theorem index_failures_not_reported :
    (cmd_index genDemo filesA).2 = (cmd_index genDemo filesB).2
      ∧ providerFailures genDemo filesA = 1
      ∧ providerFailures genDemo filesB = 0
      ∧ (cmd_index genDemo filesA).1 =
        [⟨"a.py", "good", "function", "", "", "good", [1]⟩] := by
  refine ⟨rfl, rfl, rfl, ?_⟩
  show cmdIndexRecords genDemo filesA = _
  have hb : create_searchable_text "bad" "" "" = "bad" := rfl
  have hg : create_searchable_text "good" "" "" = "good" := rfl
  simp [cmdIndexRecords, filesA, indexElements, elBad, elGood, genDemo, hb, hg]

/-- C9 amended: an embedding-provider failure skips only its own unit — the
run over a concatenation of inputs is the concatenation of the runs, so no
failure aborts the remaining units — and the end-of-run report states the
count of successfully indexed elements and the file count (failures are not
counted or reported anywhere). -/
theorem cmd_index_continues_and_reports (gen : String → Option Vec)
    (fs₁ fs₂ : List (String × List Element)) :
    cmdIndexRecords gen (fs₁ ++ fs₂) =
        cmdIndexRecords gen fs₁ ++ cmdIndexRecords gen fs₂
      ∧ (cmd_index gen (fs₁ ++ fs₂)).2 =
        "Indexed " ++ toString (cmdIndexRecords gen (fs₁ ++ fs₂)).length ++
          " elements from " ++ toString (fs₁.length + fs₂.length) ++ " files" := by
  constructor
  · unfold cmdIndexRecords
    rw [List.map_append, List.flatten_append]
  · simp [cmd_index, List.length_append]

/-- C10: when a filter column is configured without its default and the
caller omits the argument, compilation falls back to the built-in values —
168 hours for the time filter, threshold 0 for the confidence filter — and
when `display_columns` is absent the projection defaults to the aliased `id`
column and the configured content column. -/
theorem compile_builtin_defaults (config : Config) (name : String)
    (tc : TableConfig) (v : Vec) (l : Int) (tcol ccol : String)
    (hk : lookupTable config name = some tc)
    (ht : tc.filters.time_column = some tcol) (htne : tcol ≠ "")
    (hdh : tc.filters.default_hours = none)
    (hcc : tc.filters.confidence_column = some ccol) (hcne : ccol ≠ "")
    (hdc : tc.filters.default_min_confidence = none)
    (hdisp : tc.display_columns = none) :
    ∃ q, compileSearch config name v l none none = .ok q
      ∧ q.display_cols = [tc.tableAlias.getD (tc.table.take 1) ++ ".id",
          tc.tableAlias.getD (tc.table.take 1) ++ "." ++ tc.content_column]
      ∧ q.conds = [Cond.notNull (tc.tableAlias.getD (tc.table.take 1)) tc.embedding_column,
          Cond.timeGE (tc.tableAlias.getD (tc.table.take 1)) tcol 168,
          Cond.confGE (tc.tableAlias.getD (tc.table.take 1)) ccol 0]
      ∧ q.params = [Param.vec v, Param.int 168, Param.rat 0, Param.vec v, Param.int l] := by
  have hte : tcol.isEmpty = false := by
    cases he : tcol.isEmpty
    · rfl
    · exact absurd ((String.isEmpty_iff tcol).mp he) htne
  have hce : ccol.isEmpty = false := by
    cases he : ccol.isEmpty
    · rfl
    · exact absurd ((String.isEmpty_iff ccol).mp he) hcne
  refine ⟨mkCompiled tc v l none none, by simp [compileSearch, hk], ?_, ?_, ?_⟩
  · simp [mkCompiled, hdisp]
  · simp [mkCompiled, mkConds, truthyStr, ht, hcc, hte, hce,
      effectiveHours, effectiveConf, hdh, hdc]
  · simp [mkCompiled, mkConds, truthyStr, ht, hcc, hte, hce,
      effectiveHours, effectiveConf, hdh, hdc, condParams]

/-- An `events` table declaring both filter columns with no defaults and no
display columns. -/
def eventsCfg : TableConfig :=
  { table := "events", embedding_column := "embedding", content_column := "summary",
    tableAlias := none, display_columns := none, joins := [],
    filters := { time_column := some "created_at", default_hours := none,
                 confidence_column := some "confidence",
                 default_min_confidence := none } }

/-- A registry holding only the `events` table. -/
def cfgEvents : Config := [("events", eventsCfg)]

/-- C10 witness: the built-in defaults on the `events` table. -/
theorem compile_builtin_defaults_witness :
    ∃ q, compileSearch cfgEvents "events" [1] 5 none none = .ok q
      ∧ q.display_cols = [eventsCfg.tableAlias.getD (eventsCfg.table.take 1) ++ ".id",
          eventsCfg.tableAlias.getD (eventsCfg.table.take 1) ++ "." ++ eventsCfg.content_column]
      ∧ q.conds = [Cond.notNull (eventsCfg.tableAlias.getD (eventsCfg.table.take 1)) eventsCfg.embedding_column,
          Cond.timeGE (eventsCfg.tableAlias.getD (eventsCfg.table.take 1)) "created_at" 168,
          Cond.confGE (eventsCfg.tableAlias.getD (eventsCfg.table.take 1)) "confidence" 0]
      ∧ q.params = [Param.vec [1], Param.int 168, Param.rat 0, Param.vec [1], Param.int 5] :=
  compile_builtin_defaults cfgEvents "events" eventsCfg [1] 5 "created_at" "confidence"
    rfl rfl (by decide) rfl rfl (by decide) rfl rfl

/-- Membership in a stable insertion. -/
theorem mem_insertByKey (x : Row × ℚ) (l : List (Row × ℚ)) (y : Row × ℚ) :
    y ∈ insertByKey x l ↔ y = x ∨ y ∈ l := by
  induction l with
  | nil => simp [insertByKey]
  | cons z zs ih =>
    rw [insertByKey]
    split
    · simp [List.mem_cons]
    · simp only [List.mem_cons, ih]
      tauto

/-- Stable insertion preserves ascending-by-key sortedness. -/
theorem sorted_insertByKey (x : Row × ℚ) (l : List (Row × ℚ))
    (h : l.Pairwise (fun p q => p.2 ≤ q.2)) :
    (insertByKey x l).Pairwise (fun p q : Row × ℚ => p.2 ≤ q.2) := by
  induction l with
  | nil => simp [insertByKey]
  | cons z zs ih =>
    rw [insertByKey]
    rcases List.pairwise_cons.mp h with ⟨hz, hzs⟩
    split
    next hlt =>
      refine List.pairwise_cons.mpr ⟨?_, h⟩
      intro y hy
      rcases List.mem_cons.mp hy with rfl | hy'
      · exact le_of_lt hlt
      · exact le_trans (le_of_lt hlt) (hz y hy')
    next hge =>
      refine List.pairwise_cons.mpr ⟨?_, ih hzs⟩
      intro y hy
      rcases (mem_insertByKey x zs y).mp hy with rfl | hy'
      · exact not_lt.mp hge
      · exact hz y hy'

/-- The model's `ORDER BY` produces a list ascending by key. -/
theorem sorted_sortByKey (l : List (Row × ℚ)) :
    (sortByKey l).Pairwise (fun p q : Row × ℚ => p.2 ≤ q.2) := by
  induction l with
  | nil => simp [sortByKey]
  | cons x xs ih =>
    rw [sortByKey]
    exact sorted_insertByKey x _ ih

/-- Sorting neither adds nor removes rows. -/
theorem mem_sortByKey (l : List (Row × ℚ)) (y : Row × ℚ) :
    y ∈ sortByKey l ↔ y ∈ l := by
  induction l with
  | nil => simp [sortByKey]
  | cons x xs ih =>
    rw [sortByKey, mem_insertByKey]
    simp [ih]

/-- `Except`'s monadic bind on a success. -/
theorem except_bind_ok {ε α β : Type} (a : α) (f : α → Except ε β) :
    (Except.ok a >>= f) = f a := rfl

/-- `Except`'s monadic bind on an error. -/
theorem except_bind_error {ε α β : Type} (e : ε) (f : α → Except ε β) :
    ((Except.error e : Except ε α) >>= f) = Except.error e := rfl

/-- Everything a successful scan puts in the keyed list: each key is the
metric distance from the query vector to some stored embedding of matching
dimension. -/
theorem scanRows_ok_keys (metric : Vec → Vec → ℚ) (now : ℚ) (conds : List Cond)
    (qv : Vec) (a e : String) :
    ∀ rows keyed, scanRows metric now conds qv a e rows = .ok keyed →
      ∀ rd ∈ keyed, ∃ emb, emb.length = qv.length ∧ rd.2 = metric qv emb := by
  intro rows
  induction rows with
  | nil =>
    intro keyed h rd hrd
    rw [scanRows] at h
    cases h
    cases hrd
  | cons r rs ih =>
    intro keyed h rd hrd
    rw [scanRows] at h
    cases hb : condsHold now r conds with
    | error ex => rw [hb, except_bind_error] at h; cases h
    | ok b =>
      rw [hb, except_bind_ok] at h
      cases b with
      | false => exact ih keyed h rd hrd
      | true =>
        rw [if_pos rfl] at h
        split at h
        next emb heq =>
          split at h
          next hlen =>
            cases hrest : scanRows metric now conds qv a e rs with
            | error ex => rw [hrest, except_bind_error] at h; cases h
            | ok rest =>
              rw [hrest, except_bind_ok] at h
              cases h
              rcases List.mem_cons.mp hrd with rfl | hrd'
              · exact ⟨emb, hlen, rfl⟩
              · exact ih rest hrest rd hrd'
          next hlen => cases h
        next x heq => cases h

/-- Everything shaping guarantees about a successful result list: it is
`Forall₂`-related to the kept rows, each result score being `1 - distance`
of its row. -/
theorem shapeResults_ok_forall₂ (display_cols : List String) :
    ∀ l res, shapeResults display_cols l = .ok res →
      List.Forall₂ (fun (rd : Row × ℚ) (p : List (String × Value) × ℚ) =>
        p.2 = 1 - rd.2) l res := by
  intro l
  induction l with
  | nil =>
    intro res h
    rw [shapeResults] at h
    cases h
    exact List.Forall₂.nil
  | cons rd rest ih =>
    intro res h
    rw [shapeResults] at h
    cases hp : project rd.1 display_cols with
    | error ex => rw [hp, except_bind_error] at h; cases h
    | ok record =>
      rw [hp, except_bind_ok] at h
      cases ht : shapeResults display_cols rest with
      | error ex => rw [ht, except_bind_error] at h; cases h
      | ok tail =>
        rw [ht, except_bind_ok] at h
        cases h
        exact List.Forall₂.cons rfl (ih tail ht)

/-- A member of the right list of a `Forall₂` has a related member on the
left. -/
theorem forall₂_exists_of_mem_right {α β : Type} {R : α → β → Prop} :
    ∀ {l : List α} {res : List β}, List.Forall₂ R l res →
      ∀ {y : β}, y ∈ res → ∃ x ∈ l, R x y := by
  intro l res h
  induction h with
  | nil => intro y hy; cases hy
  | cons h1 _ ih =>
    intro y hy
    rcases List.mem_cons.mp hy with rfl | hy'
    · exact ⟨_, List.mem_cons_self _ _, h1⟩
    · obtain ⟨x, hx, hr⟩ := ih hy'
      exact ⟨x, List.mem_cons_of_mem _ hx, hr⟩

/-- Score lists inherit (reversed) sortedness through the `Forall₂`
relation: ascending distances give non-increasing scores. -/
theorem pairwise_scores_of_forall₂ :
    ∀ {l : List (Row × ℚ)} {res : List (List (String × Value) × ℚ)},
      List.Forall₂ (fun (rd : Row × ℚ) (p : List (String × Value) × ℚ) =>
        p.2 = 1 - rd.2) l res →
      l.Pairwise (fun p q => p.2 ≤ q.2) →
      res.Pairwise (fun x y => y.2 ≤ x.2) := by
  intro l res h
  induction h with
  | nil => intro _; exact List.Pairwise.nil
  | cons h1 h2 ih =>
    intro hp
    rcases List.pairwise_cons.mp hp with ⟨ha, hrest⟩
    refine List.pairwise_cons.mpr ⟨?_, ih hrest⟩
    intro y hy
    obtain ⟨b, hb, hr⟩ := forall₂_exists_of_mem_right h2 hy
    rw [h1, hr]
    exact sub_le_sub_left (ha b hb) 1

/-- Inversion of a successful end-to-end search: the table resolved, the
limit was non-negative, the scan succeeded, and the results were shaped from
the sorted, truncated keyed rows. -/
theorem search_ok_elim (metric : Vec → Vec → ℚ) (st : Store) (config : Config)
    (name : String) (v : Vec) (l : Int) (hours : Option Int) (conf : Option ℚ)
    (res : List (List (String × Value) × ℚ))
    (h : search metric st config name v l hours conf = .ok res) :
    ∃ tc keyed, lookupTable config name = some tc
      ∧ ¬((mkCompiled tc v l hours conf).limit < 0)
      ∧ scanRows metric st.now (mkCompiled tc v l hours conf).conds
          (mkCompiled tc v l hours conf).query_embedding
          (mkCompiled tc v l hours conf).tableAlias
          (mkCompiled tc v l hours conf).embedding_col st.rows = .ok keyed
      ∧ shapeResults (mkCompiled tc v l hours conf).display_cols
          ((sortByKey keyed).take (mkCompiled tc v l hours conf).limit.toNat) =
        .ok res := by
  unfold search compileSearch at h
  cases hk : lookupTable config name with
  | none => rw [hk] at h; cases h
  | some tc =>
    rw [hk] at h
    rw [show Except.bind (Except.ok (mkCompiled tc v l hours conf))
        (runCompiled metric st) =
        runCompiled metric st (mkCompiled tc v l hours conf) from rfl] at h
    unfold runCompiled at h
    split at h
    next => cases h
    next hneg =>
      cases hs : scanRows metric st.now (mkCompiled tc v l hours conf).conds
          (mkCompiled tc v l hours conf).query_embedding
          (mkCompiled tc v l hours conf).tableAlias
          (mkCompiled tc v l hours conf).embedding_col st.rows with
      | error ex => rw [hs, except_bind_error] at h; cases h
      | ok keyed =>
        rw [hs, except_bind_ok] at h
        exact ⟨tc, keyed, rfl, hneg, hs, h⟩

/-- C5: a successful search is ordered non-increasing by similarity score;
and in the compiled statement the `ORDER BY` expression is literally the
distance expression projected in the `SELECT` score (`1 - (...)`), with the
same query vector bound for both placeholders (the first parameter and the
second-to-last parameter are both the query vector). -/
theorem search_ordered_and_consistent (metric : Vec → Vec → ℚ) (st : Store)
    (config : Config) (name : String) (v : Vec) (l : Int)
    (hours : Option Int) (conf : Option ℚ) :
    (∀ res, search metric st config name v l hours conf = .ok res →
        res.Pairwise (fun x y => y.2 ≤ x.2))
      ∧ (∀ q, compileSearch config name v l hours conf = .ok q →
          q.order_clause = q.tableAlias ++ "." ++ q.embedding_col ++ " <=> %s::vector"
            ∧ q.select_clause = String.intercalate ", " q.display_cols ++
                ", 1 - (" ++ q.order_clause ++ ") as similarity_score"
            ∧ ∃ mid, q.params = Param.vec v :: (mid ++ [Param.vec v, Param.int l])) := by
  constructor
  · intro res h
    obtain ⟨tc, keyed, hk, hneg, hs, hshape⟩ :=
      search_ok_elim metric st config name v l hours conf res h
    have hsor := List.Pairwise.sublist
      (List.take_sublist (mkCompiled tc v l hours conf).limit.toNat (sortByKey keyed))
      (sorted_sortByKey keyed)
    exact pairwise_scores_of_forall₂ (shapeResults_ok_forall₂ _ _ _ hshape) hsor
  · intro q hq
    unfold compileSearch at hq
    cases hk : lookupTable config name with
    | none => rw [hk] at hq; cases hq
    | some tc =>
      rw [hk] at hq
      cases hq
      refine ⟨rfl, ?_, ?_⟩
      · simp [mkCompiled, String.append_assoc]
      · exact ⟨(mkConds (tc.tableAlias.getD (tc.table.take 1)) tc.embedding_column
          tc.filters hours conf).flatMap condParams, rfl⟩

/-- C5 witness: the instance on an empty `events` store — an empty (hence
trivially ordered) result — and the compiled-statement consistency facts at
the concrete `events` configuration. -/
theorem search_ordered_and_consistent_witness :
    List.Pairwise (fun x y : List (String × Value) × ℚ => y.2 ≤ x.2)
        ([] : List (List (String × Value) × ℚ))
      ∧ ((mkCompiled eventsCfg [1] 5 none none).order_clause =
            (mkCompiled eventsCfg [1] 5 none none).tableAlias ++ "." ++
              (mkCompiled eventsCfg [1] 5 none none).embedding_col ++ " <=> %s::vector"
          ∧ (mkCompiled eventsCfg [1] 5 none none).select_clause =
            String.intercalate ", " (mkCompiled eventsCfg [1] 5 none none).display_cols ++
              ", 1 - (" ++ (mkCompiled eventsCfg [1] 5 none none).order_clause ++
              ") as similarity_score"
          ∧ ∃ mid, (mkCompiled eventsCfg [1] 5 none none).params =
              Param.vec [1] :: (mid ++ [Param.vec [1], Param.int 5])) := by
  have h := search_ordered_and_consistent (fun _ _ => 0) (⟨[], 0⟩ : Store)
    cfgEvents "events" [1] 5 none none
  refine ⟨h.1 [] ?_, h.2 (mkCompiled eventsCfg [1] 5 none none) rfl⟩
  rw [search, show compileSearch cfgEvents "events" [1] 5 none none =
    .ok (mkCompiled eventsCfg [1] 5 none none) from rfl]
  show runCompiled (fun _ _ => 0) ⟨[], 0⟩ (mkCompiled eventsCfg [1] 5 none none) = _
  unfold runCompiled
  rw [if_neg (show ¬ (mkCompiled eventsCfg [1] 5 none none).limit < 0 by
    rw [show (mkCompiled eventsCfg [1] 5 none none).limit = (5 : Int) from rfl]
    omega)]
  rw [show scanRows (fun _ _ => 0) (⟨[], 0⟩ : Store).now
      (mkCompiled eventsCfg [1] 5 none none).conds
      (mkCompiled eventsCfg [1] 5 none none).query_embedding
      (mkCompiled eventsCfg [1] 5 none none).tableAlias
      (mkCompiled eventsCfg [1] 5 none none).embedding_col
      (⟨[], 0⟩ : Store).rows = .ok [] from rfl, except_bind_ok]
  rw [show sortByKey [] = [] from rfl, List.take_nil]
  rfl

/-- A `facts` row whose embedding `[-1, 0]` is diametrically opposed to the
query vector `[1, 0]`. -/
def rowOpp : Row :=
  ⟨[("f.id", Value.num 3), ("f.fact", Value.str "opposite"),
    ("f.confidence", Value.num 0.8), ("f.embedding", Value.vec [-1, 0])]⟩

/-- A store holding only the opposed row. -/
def storeOpp : Store := ⟨[rowOpp], 0⟩

/-- C6 counterexample: a stored embedding diametrically opposed to the query
vector has cosine distance 2, so its similarity score is exactly −1, which
does not lie in the claimed half-open interval (−1, 1]. -/
theorem score_can_reach_minus_one :
    search cosineDist storeOpp cfgDemo "facts" [1, 0] 10 none none =
        .ok [([("f.id", Value.num 3), ("f.fact", Value.str "opposite")], -1)]
      ∧ ¬(-1 < (-1 : ℚ)) := by
  constructor
  · have hc : compileSearch cfgDemo "facts" [1, 0] 10 none none =
        .ok (mkCompiled factsCfg [1, 0] 10 none none) := rfl
    have h1 : ((0.6 : ℚ) ≤ 0.8) := by norm_num
    have h2 : ((1 : ℚ) - 2 = -1) := by norm_num
    rw [search, hc]
    show runCompiled cosineDist storeOpp (mkCompiled factsCfg [1, 0] 10 none none) = _
    simp [mkCompiled, factsCfg, mkConds, truthyStr, effectiveConf, effectiveHours,
      runCompiled, scanRows, condsHold, evalCond, getCol, storeOpp, rowOpp, sortByKey,
      insertByKey, shapeResults, project, Except.bind, Except.instMonad, Bind.bind,
      cosineDist_opposite_unit, h1, h2, take_facts]
  · exact lt_irrefl (-1 : ℚ)

/-- C6 amended: whenever the backend metric ranges in [0, 2] (as cosine
distance does), a successful search returns at most `limit` results, each
with a score in the closed interval [−1, 1] (the endpoint −1 is attained,
see the counterexample); and on an empty store a search for a configured
table with a non-negative limit returns the empty sequence, not an error. -/
theorem search_limit_and_score_range (metric : Vec → Vec → ℚ) (st : Store)
    (config : Config) (name : String) (v : Vec) (l : Int)
    (hours : Option Int) (conf : Option ℚ) :
    (∀ res, search metric st config name v l hours conf = .ok res →
        (∀ a b, 0 ≤ metric a b ∧ metric a b ≤ 2) →
        res.length ≤ l.toNat ∧ ∀ p ∈ res, -1 ≤ p.2 ∧ p.2 ≤ 1)
      ∧ ((lookupTable config name).isSome = true → 0 ≤ l →
          search metric ⟨[], st.now⟩ config name v l hours conf = .ok []) := by
  constructor
  · intro res h hm
    obtain ⟨tc, keyed, hk, hneg, hs, hshape⟩ :=
      search_ok_elim metric st config name v l hours conf res h
    have hf := shapeResults_ok_forall₂ _ _ _ hshape
    have hlim : (mkCompiled tc v l hours conf).limit = l := rfl
    constructor
    · rw [← List.Forall₂.length_eq hf, List.length_take, hlim]
      exact min_le_left _ _
    · intro p hp
      obtain ⟨rd, hrd, hscore⟩ := forall₂_exists_of_mem_right hf hp
      have hrdk : rd ∈ keyed :=
        (mem_sortByKey keyed rd).mp (List.take_subset _ _ hrd)
      obtain ⟨emb, _, hdist⟩ :=
        scanRows_ok_keys metric st.now (mkCompiled tc v l hours conf).conds
          (mkCompiled tc v l hours conf).query_embedding
          (mkCompiled tc v l hours conf).tableAlias
          (mkCompiled tc v l hours conf).embedding_col st.rows keyed hs rd hrdk
      obtain ⟨h0, h2⟩ := hm (mkCompiled tc v l hours conf).query_embedding emb
      rw [hscore, hdist]
      constructor <;> linarith
  · intro hk hl
    obtain ⟨tc, htc⟩ := Option.isSome_iff_exists.mp hk
    rw [search, show compileSearch config name v l hours conf =
      .ok (mkCompiled tc v l hours conf) by rw [compileSearch, htc]]
    show runCompiled metric ⟨[], st.now⟩ (mkCompiled tc v l hours conf) = _
    unfold runCompiled
    rw [if_neg (show ¬ (mkCompiled tc v l hours conf).limit < 0 by
      rw [show (mkCompiled tc v l hours conf).limit = l from rfl]; omega)]
    rw [show scanRows metric (⟨[], st.now⟩ : Store).now
        (mkCompiled tc v l hours conf).conds
        (mkCompiled tc v l hours conf).query_embedding
        (mkCompiled tc v l hours conf).tableAlias
        (mkCompiled tc v l hours conf).embedding_col
        (⟨[], st.now⟩ : Store).rows = .ok [] from rfl, except_bind_ok]
    rw [show sortByKey [] = [] from rfl, List.take_nil]
    rfl

/-- C6 amended witness: the instance on an empty `events` store with
`limit = 5` and the constant metric 1 (which ranges in [0, 2]). -/
theorem search_limit_and_score_range_witness :
    (([] : List (List (String × Value) × ℚ)).length ≤ (5 : Int).toNat
        ∧ ∀ p ∈ ([] : List (List (String × Value) × ℚ)), -1 ≤ p.2 ∧ p.2 ≤ 1)
      ∧ search (fun _ _ => 1) ⟨[], 0⟩ cfgEvents "events" [1] 5 none none =
        .ok [] := by
  have h := search_limit_and_score_range (fun _ _ => 1) (⟨[], 0⟩ : Store)
    cfgEvents "events" [1] 5 none none
  have hempty := h.2 rfl (by omega)
  exact ⟨h.1 [] hempty (fun a b => by norm_num), hempty⟩

end SemanticSearch
